import Mathlib

/-!
Verification development for `olive/drivers/pi/wrapper.pyx`, a Cython
binding around the GCS2 native motion-controller library.

The native library is modelled as an explicit environment (`Gcs2`): each
native entry point is a pure function from its inputs to its return code
and the contents it writes into caller-supplied buffers / out-parameters.
Every wrapper operation is embedded as a Lean function taking such an
environment, returning `Except PIError α` (normal return vs raised Python
exception) paired with the list of native calls it issued, in order.

Python strings crossing the ASCII boundary are modelled as byte lists
(`encodeAscii` / `decodeAsciiReplace`); Cython's `view.array` raises a
`ValueError` for a non-positive extent, which the embedding reproduces
before the native call, exactly as the source allocates buffers first.
-/

/-- ASCII encoding of a Python string (`str.encode('ascii')`), modelled as
the code points of the characters. -/
def encodeAscii (s : String) : List Nat :=
  s.data.map Char.toNat

/-- Conversion of a C `char*` to a Python `bytes`: the bytes up to the
first NUL terminator. -/
def cstr (buf : List Nat) : List Nat :=
  buf.takeWhile (fun b => b ≠ 0)

/-- `bytes.decode('ascii', errors='replace')`: bytes above 0x7F are
replaced with U+FFFD instead of failing. -/
def decodeAsciiReplace (bs : List Nat) : String :=
  String.mk (bs.map (fun b => if b < 128 then Char.ofNat b else Char.ofNat 0xFFFD))

/-- The Python exceptions the wrapper can raise. -/
inductive PIError where
  /-- `raise RuntimeError(msg)` -/
  | runtimeError (msg : String)
  /-- a failed `assert cond, msg` -/
  | assertionError (msg : String)
  /-- `ValueError`, e.g. from `cython.view.array` on a non-positive shape
  or from constructing an enum member from an invalid value -/
  | valueError (msg : String)
  deriving Repr, DecidableEq

/-- `ReferenceMode(IntEnum)`: Absolute = 1, Relative = 0. -/
inductive ReferenceMode where
  | Absolute
  | Relative
  deriving Repr, DecidableEq

/-- The numeric value of a `ReferenceMode` member. -/
def ReferenceMode.toInt : ReferenceMode → Int
  | .Absolute => 1
  | .Relative => 0

/-- `ReferenceMode(n)`: `some` member for 1 and 0, `none` (a Python
`ValueError`) for any other value. -/
def ReferenceMode.ofInt (n : Int) : Option ReferenceMode :=
  if n = 1 then some .Absolute
  else if n = 0 then some .Relative
  else none

/-- `ReferenceStrategy(Enum)` with its three members. -/
inductive ReferenceStrategy where
  | ReferenceSwitch
  | NegativeLimit
  | PositiveLimit
  deriving Repr, DecidableEq

/-- `ServoState(IntEnum)`: OpenLoop = 0, ClosedLoop = 1. -/
inductive ServoState where
  | OpenLoop
  | ClosedLoop
  deriving Repr, DecidableEq

/-- A record of one native GCS2 call, with the arguments the wrapper
passed in (buffer pointers are omitted; buffer sizes are kept). -/
inductive NativeCall where
  | PI_EnumerateUSB (nbytes : Int) (keyword : List Nat)
  | PI_ConnectUSB (desc : List Nat)
  | PI_ConnectUSBWithBaudRate (desc : List Nat) (baudrate : Int)
  | PI_TryConnectUSB (desc : List Nat)
  | PI_IsConnecting (thread_id : Int)
  | PI_GetControllerID (thread_id : Int)
  | PI_IsConnected (ctrl_id : Int)
  | PI_SetDaisyChainScanMaxDeviceID (max_id : Int)
  | PI_OpenUSBDaisyChain (desc : List Nat) (nbytes : Int)
  | PI_ConnectDaisyChainDevice (daisy_id : Int) (index : Int)
  | PI_CloseDaisyChain (daisy_id : Int)
  | PI_CloseConnection (ctrl_id : Int)
  | PI_TranslateError (err_id : Int) (nbytes : Int)
  | PI_GetError (ctrl_id : Int)
  | PI_SetErrorCheck (ctrl_id : Int) (err_check : Bool)
  | PI_IsMoving (ctrl_id : Int) (axes : List Nat)
  | PI_IsControllerReady (ctrl_id : Int)
  | PI_IsRunningMacro (ctrl_id : Int)
  | PI_qSAI_ALL (ctrl_id : Int) (nbytes : Int)
  | PI_qSAI (ctrl_id : Int) (nbytes : Int)
  | PI_StopAll (ctrl_id : Int)
  | PI_qHLP (ctrl_id : Int) (nbytes : Int)
  | PI_qIDN (ctrl_id : Int) (nbytes : Int)
  | PI_qHPA (ctrl_id : Int) (nbytes : Int)
  | PI_qTVI (ctrl_id : Int) (nbytes : Int)
  | PI_qVER (ctrl_id : Int) (nbytes : Int)
  | PI_qRON (ctrl_id : Int) (axis : List Nat)
  | PI_RON (ctrl_id : Int) (axis : List Nat) (mode : Int)
  | PI_qFRF (ctrl_id : Int) (axis : List Nat)
  | PI_FRF (ctrl_id : Int) (axis : List Nat)
  | PI_FNL (ctrl_id : Int) (axis : List Nat)
  | PI_FPL (ctrl_id : Int) (axis : List Nat)
  | PI_GOH (ctrl_id : Int) (axis : List Nat)
  | PI_HLT (ctrl_id : Int) (axis : List Nat)
  | PI_qPOS (ctrl_id : Int) (axis : List Nat)
  | PI_POS (ctrl_id : Int) (axis : List Nat) (value : Float)
  | PI_MOV (ctrl_id : Int) (axis : List Nat) (value : Float)
  | PI_MVR (ctrl_id : Int) (axis : List Nat) (value : Float)
  | PI_qVEL (ctrl_id : Int) (axis : List Nat)
  | PI_VEL (ctrl_id : Int) (axis : List Nat) (vel : Float)
  | PI_qACC (ctrl_id : Int) (axis : List Nat)
  | PI_ACC (ctrl_id : Int) (axis : List Nat) (acc : Float)
  | PI_qTMN (ctrl_id : Int) (axis : List Nat)
  | PI_qTMX (ctrl_id : Int) (axis : List Nat)
  | PI_qCST (ctrl_id : Int) (axis : List Nat) (nbytes : Int)
  | PI_qSPA (ctrl_id : Int) (axis : List Nat) (parameter : Nat) (nbytes : Int)
  | PI_qSEP (ctrl_id : Int) (axis : List Nat) (parameter : Nat) (nbytes : Int)
  | PI_SPA (ctrl_id : Int) (axis : List Nat) (parameter : Nat)
      (values : List Float) (string : List Nat)
  | PI_SEP (ctrl_id : Int) (password : List Nat) (axis : List Nat) (parameter : Nat)
      (values : List Float) (string : List Nat)
  | PI_SVO (ctrl_id : Int) (axis : List Nat) (state : Int)
  deriving Repr

/-- The behaviour of the native GCS2 library: every entry point the
wrapper uses, as a pure function from arguments to its `int` return code
together with whatever it writes through out-pointers (buffer contents as
byte lists, scalar out-parameters as extra components). -/
structure Gcs2 where
  PI_EnumerateUSB : Int → List Nat → Int × List Nat
  PI_ConnectUSB : List Nat → Int
  PI_ConnectUSBWithBaudRate : List Nat → Int → Int
  PI_TryConnectUSB : List Nat → Int
  PI_IsConnecting : Int → Int × Int
  PI_GetControllerID : Int → Int
  PI_IsConnected : Int → Int
  PI_SetDaisyChainScanMaxDeviceID : Int → Int
  PI_OpenUSBDaisyChain : List Nat → Int → Int × Int × List Nat
  PI_ConnectDaisyChainDevice : Int → Int → Int
  PI_CloseDaisyChain : Int → Int
  PI_CloseConnection : Int → Int
  PI_TranslateError : Int → Int → Int × List Nat
  PI_GetError : Int → Int
  PI_SetErrorCheck : Int → Bool → Int
  PI_IsMoving : Int → List Nat → Int × Int
  PI_IsControllerReady : Int → Int × Int
  PI_IsRunningMacro : Int → Int × Int
  PI_qSAI_ALL : Int → Int → Int × List Nat
  PI_qSAI : Int → Int → Int × List Nat
  PI_StopAll : Int → Int
  PI_qHLP : Int → Int → Int × List Nat
  PI_qIDN : Int → Int → Int × List Nat
  PI_qHPA : Int → Int → Int × List Nat
  PI_qTVI : Int → Int → Int × List Nat
  PI_qVER : Int → Int → Int × List Nat
  PI_qRON : Int → List Nat → Int × Int
  PI_RON : Int → List Nat → Int → Int
  PI_qFRF : Int → List Nat → Int × Int
  PI_FRF : Int → List Nat → Int
  PI_FNL : Int → List Nat → Int
  PI_FPL : Int → List Nat → Int
  PI_GOH : Int → List Nat → Int
  PI_HLT : Int → List Nat → Int
  PI_qPOS : Int → List Nat → Int × Float
  PI_POS : Int → List Nat → Float → Int
  PI_MOV : Int → List Nat → Float → Int
  PI_MVR : Int → List Nat → Float → Int
  PI_qVEL : Int → List Nat → Int × Float
  PI_VEL : Int → List Nat → Float → Int
  PI_qACC : Int → List Nat → Int × Float
  PI_ACC : Int → List Nat → Float → Int
  PI_qTMN : Int → List Nat → Int × Float
  PI_qTMX : Int → List Nat → Int × Float
  PI_qCST : Int → List Nat → Int → Int × List Nat
  PI_qSPA : Int → List Nat → Nat → Int → Int × List Float × List Nat
  PI_qSEP : Int → List Nat → Nat → Int → Int × List Float × List Nat
  PI_SPA : Int → List Nat → Nat → List Float → List Nat → Int
  PI_SEP : Int → List Nat → List Nat → Nat → List Float → List Nat → Int
  PI_SVO : Int → List Nat → Int → Int

/-- The `ValueError` raised by `cython.view.array` when asked for a
non-positive extent (`shape=(nbytes,)` with `nbytes <= 0`). -/
def bufferShapeError (nbytes : Int) : PIError :=
  .valueError ("Invalid shape in axis 0: " ++ toString nbytes ++ ".")

/-- `translate_error(err_id, nbytes=1024)`: allocate an `nbytes` buffer,
call `PI_TranslateError`, `assert ret > 0`, and decode the buffer as
ASCII with lossy replacement. -/
def translate_error (env : Gcs2) (err_id : Int) (nbytes : Int) :
    Except PIError String × List NativeCall :=
  if nbytes ≤ 0 then (.error (bufferShapeError nbytes), [])
  else
    let pr := env.PI_TranslateError err_id nbytes
    if pr.1 > 0 then
      (.ok (decodeAsciiReplace (cstr (pr.2.take nbytes.toNat))),
        [.PI_TranslateError err_id nbytes])
    else
      (.error (.assertionError
        ("message buffer (" ++ toString nbytes ++ " bytes) is too small")),
        [.PI_TranslateError err_id nbytes])

/-- `translate_error` at its default buffer size: the source declares
`int nbytes=1024`. -/
def translate_error_default (env : Gcs2) (err_id : Int) :
    Except PIError String × List NativeCall :=
  translate_error env err_id 1024

/-- `Communication.check_error(ret)`: raise
`RuntimeError(translate_error(ret))` when `ret < 0`, otherwise do
nothing. (The `print` of the failing id is I/O only and has no modelled
effect.) -/
def Communication.check_error (env : Gcs2) (ret : Int) :
    Except PIError Unit × List NativeCall :=
  if ret < 0 then
    let tr := translate_error env ret 1024
    match tr.1 with
    | .ok msg => (.error (.runtimeError msg), tr.2)
    | .error e => (.error e, tr.2)
  else (.ok (), [])

/-- `Communication.enumerate_usb(keyword="", nbytes=1024)`. -/
def Communication.enumerate_usb (env : Gcs2) (keyword : String) (nbytes : Int) :
    Except PIError String × List NativeCall :=
  if nbytes ≤ 0 then (.error (bufferShapeError nbytes), [])
  else
    let c_keyword := encodeAscii keyword
    let pr := env.PI_EnumerateUSB nbytes c_keyword
    let chk := Communication.check_error env pr.1
    (chk.1.map (fun _ => decodeAsciiReplace (cstr (pr.2.take nbytes.toNat))),
      .PI_EnumerateUSB nbytes c_keyword :: chk.2)

/-- `Communication.connect_usb(desc, baudrate=-1)`: plain USB connect for
a negative baudrate, baudrate-pinned connect otherwise; returns the
controller id on success. -/
def Communication.connect_usb (env : Gcs2) (desc : String) (baudrate : Int) :
    Except PIError Int × List NativeCall :=
  let c_desc := encodeAscii desc
  let pr : Int × NativeCall :=
    if baudrate < 0 then
      (env.PI_ConnectUSB c_desc, .PI_ConnectUSB c_desc)
    else
      (env.PI_ConnectUSBWithBaudRate c_desc baudrate,
        .PI_ConnectUSBWithBaudRate c_desc baudrate)
  let chk := Communication.check_error env pr.1
  (chk.1.map (fun _ => pr.1), pr.2 :: chk.2)

/-- `Communication.try_connect_usb(desc)`: begins an asynchronous
connection attempt and returns the thread id. -/
def Communication.try_connect_usb (env : Gcs2) (desc : String) :
    Except PIError Int × List NativeCall :=
  let c_desc := encodeAscii desc
  let ret := env.PI_TryConnectUSB c_desc
  let chk := Communication.check_error env ret
  (chk.1.map (fun _ => ret), .PI_TryConnectUSB c_desc :: chk.2)

/-- `Communication.is_connecting(thread_id)`: polls the asynchronous
attempt; the out-parameter is reported as `status > 0`. -/
def Communication.is_connecting (env : Gcs2) (thread_id : Int) :
    Except PIError Bool × List NativeCall :=
  let pr := env.PI_IsConnecting thread_id
  let chk := Communication.check_error env pr.1
  (chk.1.map (fun _ => decide (pr.2 > 0)), .PI_IsConnecting thread_id :: chk.2)

/-- `Communication.get_controller_id(thread_id)`: resolves a finished
asynchronous attempt to a controller id. -/
def Communication.get_controller_id (env : Gcs2) (thread_id : Int) :
    Except PIError Int × List NativeCall :=
  let ret := env.PI_GetControllerID thread_id
  let chk := Communication.check_error env ret
  (chk.1.map (fun _ => ret), .PI_GetControllerID thread_id :: chk.2)

/-- `Communication.is_connected(ctrl_id)`: no error check at all, just
`ret > 0`. -/
def Communication.is_connected (env : Gcs2) (ctrl_id : Int) :
    Except PIError Bool × List NativeCall :=
  let ret := env.PI_IsConnected ctrl_id
  (.ok (decide (ret > 0)), [.PI_IsConnected ctrl_id])

/-- `Communication.set_daisy_chain_scan_max_device_id(max_id)`. -/
def Communication.set_daisy_chain_scan_max_device_id (env : Gcs2) (max_id : Int) :
    Except PIError Unit × List NativeCall :=
  let ret := env.PI_SetDaisyChainScanMaxDeviceID max_id
  let chk := Communication.check_error env ret
  (chk.1, .PI_SetDaisyChainScanMaxDeviceID max_id :: chk.2)

/-- `Communication.open_usb_daisy_chain(desc, nbytes=1024)`: returns the
daisy-chain id, the number of devices on the chain, and the decoded
identification buffer. -/
def Communication.open_usb_daisy_chain (env : Gcs2) (desc : String) (nbytes : Int) :
    Except PIError (Int × Int × String) × List NativeCall :=
  if nbytes ≤ 0 then (.error (bufferShapeError nbytes), [])
  else
    let c_desc := encodeAscii desc
    let pr := env.PI_OpenUSBDaisyChain c_desc nbytes
    let chk := Communication.check_error env pr.1
    (chk.1.map (fun _ =>
        (pr.1, pr.2.1, decodeAsciiReplace (cstr (pr.2.2.take nbytes.toNat)))),
      .PI_OpenUSBDaisyChain c_desc nbytes :: chk.2)

/-- `Communication.connect_daisy_chain_device(daisy_id, index)`. -/
def Communication.connect_daisy_chain_device (env : Gcs2) (daisy_id : Int) (index : Int) :
    Except PIError Int × List NativeCall :=
  let ret := env.PI_ConnectDaisyChainDevice daisy_id index
  let chk := Communication.check_error env ret
  (chk.1.map (fun _ => ret), .PI_ConnectDaisyChainDevice daisy_id index :: chk.2)

/-- `Communication.close_daisy_chain(daisy_id)`: fire-and-forget, the
native return is ignored and no error check happens. -/
def Communication.close_daisy_chain (env : Gcs2) (daisy_id : Int) :
    Except PIError Unit × List NativeCall :=
  (.ok (), [.PI_CloseDaisyChain daisy_id])

/-- `Communication.close_connection(ctrl_id)`: fire-and-forget, the
native return is ignored and no error check happens. -/
def Communication.close_connection (env : Gcs2) (ctrl_id : Int) :
    Except PIError Unit × List NativeCall :=
  (.ok (), [.PI_CloseConnection ctrl_id])

/-- `ControllerCommand`: wraps a controller id; `cdef readonly int
ctrl_id` set in `__cinit__`. -/
structure ControllerCommand where
  ctrl_id : Int
  deriving Repr

/-- `ControllerCommand.__cinit__(ctrl_id, *args)`. -/
def ControllerCommand.cinit (ctrl_id : Int) : ControllerCommand :=
  { ctrl_id := ctrl_id }

/-- `ControllerCommand.check_error(ret)`: `ret > 0` is success; anything
else fetches the controller's last error id via `PI_GetError` and raises
`RuntimeError(translate_error(err_id))`. -/
def ControllerCommand.check_error (env : Gcs2) (ctrl_id : Int) (ret : Int) :
    Except PIError Unit × List NativeCall :=
  if ret > 0 then (.ok (), [])
  else
    let err_id := env.PI_GetError ctrl_id
    let tr := translate_error env err_id 1024
    match tr.1 with
    | .ok msg => (.error (.runtimeError msg), .PI_GetError ctrl_id :: tr.2)
    | .error e => (.error e, .PI_GetError ctrl_id :: tr.2)

/-- `ControllerCommand.set_error_check(err_check)`: forwards the toggle,
no error check on the return. -/
def ControllerCommand.set_error_check (env : Gcs2) (self : ControllerCommand)
    (err_check : Bool) : Except PIError Unit × List NativeCall :=
  let ret := env.PI_SetErrorCheck self.ctrl_id err_check
  let _ := ret
  (.ok (), [.PI_SetErrorCheck self.ctrl_id err_check])

/-- `ControllerCommand.is_moving(axes="")`. -/
def ControllerCommand.is_moving (env : Gcs2) (self : ControllerCommand)
    (axes : String) : Except PIError Bool × List NativeCall :=
  let c_axes := encodeAscii axes
  let pr := env.PI_IsMoving self.ctrl_id c_axes
  let chk := ControllerCommand.check_error env self.ctrl_id pr.1
  (chk.1.map (fun _ => decide (pr.2 > 0)), .PI_IsMoving self.ctrl_id c_axes :: chk.2)

/-- `ControllerCommand.is_controller_ready()`. -/
def ControllerCommand.is_controller_ready (env : Gcs2) (self : ControllerCommand) :
    Except PIError Bool × List NativeCall :=
  let pr := env.PI_IsControllerReady self.ctrl_id
  let chk := ControllerCommand.check_error env self.ctrl_id pr.1
  (chk.1.map (fun _ => decide (pr.2 > 0)), .PI_IsControllerReady self.ctrl_id :: chk.2)

/-- `ControllerCommand.is_running_macro()`. -/
def ControllerCommand.is_running_macro (env : Gcs2) (self : ControllerCommand) :
    Except PIError Bool × List NativeCall :=
  let pr := env.PI_IsRunningMacro self.ctrl_id
  let chk := ControllerCommand.check_error env self.ctrl_id pr.1
  (chk.1.map (fun _ => decide (pr.2 > 0)), .PI_IsRunningMacro self.ctrl_id :: chk.2)

/-- `ControllerCommand.get_axes_enable_status(axes)`: the body is `pass`,
so the call returns `None` and issues no native call. -/
def ControllerCommand.get_axes_enable_status (env : Gcs2) (self : ControllerCommand)
    (axes : String) : Except PIError Unit × List NativeCall :=
  let _ := env
  let _ := self
  let _ := axes
  (.ok (), [])

/-- `ControllerCommand.set_axes_enable_status(axes, state)`: the body is
`pass`, so the call returns `None` and issues no native call. -/
def ControllerCommand.set_axes_enable_status (env : Gcs2) (self : ControllerCommand)
    (axes : String) (state : Bool) : Except PIError Unit × List NativeCall :=
  let _ := env
  let _ := self
  let _ := axes
  let _ := state
  (.ok (), [])

/-- `ControllerCommand.get_axes_id(include_deactivated=True, nbytes=512)`:
`PI_qSAI_ALL` when deactivated axes are included, `PI_qSAI` otherwise. -/
def ControllerCommand.get_axes_id (env : Gcs2) (self : ControllerCommand)
    (include_deactivated : Bool) (nbytes : Int) :
    Except PIError String × List NativeCall :=
  if nbytes ≤ 0 then (.error (bufferShapeError nbytes), [])
  else
    let pr : (Int × List Nat) × NativeCall :=
      if include_deactivated then
        (env.PI_qSAI_ALL self.ctrl_id nbytes, .PI_qSAI_ALL self.ctrl_id nbytes)
      else
        (env.PI_qSAI self.ctrl_id nbytes, .PI_qSAI self.ctrl_id nbytes)
    let chk := ControllerCommand.check_error env self.ctrl_id pr.1.1
    (chk.1.map (fun _ => decodeAsciiReplace (cstr (pr.1.2.take nbytes.toNat))),
      pr.2 :: chk.2)

/-- `ControllerCommand.stop_all()`. -/
def ControllerCommand.stop_all (env : Gcs2) (self : ControllerCommand) :
    Except PIError Unit × List NativeCall :=
  let ret := env.PI_StopAll self.ctrl_id
  let chk := ControllerCommand.check_error env self.ctrl_id ret
  (chk.1, .PI_StopAll self.ctrl_id :: chk.2)

/-- `ControllerCommand.get_available_commands(nbytes=512)` (`qHLP`). -/
def ControllerCommand.get_available_commands (env : Gcs2) (self : ControllerCommand)
    (nbytes : Int) : Except PIError String × List NativeCall :=
  if nbytes ≤ 0 then (.error (bufferShapeError nbytes), [])
  else
    let pr := env.PI_qHLP self.ctrl_id nbytes
    let chk := ControllerCommand.check_error env self.ctrl_id pr.1
    (chk.1.map (fun _ => decodeAsciiReplace (cstr (pr.2.take nbytes.toNat))),
      .PI_qHLP self.ctrl_id nbytes :: chk.2)

/-- `ControllerCommand.get_identification_string(nbytes=256)` (`qIDN`). -/
def ControllerCommand.get_identification_string (env : Gcs2) (self : ControllerCommand)
    (nbytes : Int) : Except PIError String × List NativeCall :=
  if nbytes ≤ 0 then (.error (bufferShapeError nbytes), [])
  else
    let pr := env.PI_qIDN self.ctrl_id nbytes
    let chk := ControllerCommand.check_error env self.ctrl_id pr.1
    (chk.1.map (fun _ => decodeAsciiReplace (cstr (pr.2.take nbytes.toNat))),
      .PI_qIDN self.ctrl_id nbytes :: chk.2)

/-- `ControllerCommand.get_available_parameters(nbytes=512)` (`qHPA`). -/
def ControllerCommand.get_available_parameters (env : Gcs2) (self : ControllerCommand)
    (nbytes : Int) : Except PIError String × List NativeCall :=
  if nbytes ≤ 0 then (.error (bufferShapeError nbytes), [])
  else
    let pr := env.PI_qHPA self.ctrl_id nbytes
    let chk := ControllerCommand.check_error env self.ctrl_id pr.1
    (chk.1.map (fun _ => decodeAsciiReplace (cstr (pr.2.take nbytes.toNat))),
      .PI_qHPA self.ctrl_id nbytes :: chk.2)

/-- `ControllerCommand.get_valid_character_set(nbytes=512)` (`qTVI`). -/
def ControllerCommand.get_valid_character_set (env : Gcs2) (self : ControllerCommand)
    (nbytes : Int) : Except PIError String × List NativeCall :=
  if nbytes ≤ 0 then (.error (bufferShapeError nbytes), [])
  else
    let pr := env.PI_qTVI self.ctrl_id nbytes
    let chk := ControllerCommand.check_error env self.ctrl_id pr.1
    (chk.1.map (fun _ => decodeAsciiReplace (cstr (pr.2.take nbytes.toNat))),
      .PI_qTVI self.ctrl_id nbytes :: chk.2)

/-- `ControllerCommand.get_version(nbytes=512)` (`qVER`). -/
def ControllerCommand.get_version (env : Gcs2) (self : ControllerCommand)
    (nbytes : Int) : Except PIError String × List NativeCall :=
  if nbytes ≤ 0 then (.error (bufferShapeError nbytes), [])
  else
    let pr := env.PI_qVER self.ctrl_id nbytes
    let chk := ControllerCommand.check_error env self.ctrl_id pr.1
    (chk.1.map (fun _ => decodeAsciiReplace (cstr (pr.2.take nbytes.toNat))),
      .PI_qVER self.ctrl_id nbytes :: chk.2)

/-- `AxisCommand(ControllerCommand)`: additionally stores `cdef readonly
bytes axis_id`, fixed in `__cinit__`. -/
structure AxisCommand extends ControllerCommand where
  axis_id : List Nat
  deriving Repr

/-- `AxisCommand.__cinit__(ctrl_id, axis_id)`: stores the controller id
and the ASCII-encoded axis id. -/
def AxisCommand.cinit (ctrl_id : Int) (axis_id : String) : AxisCommand :=
  { ctrl_id := ctrl_id, axis_id := encodeAscii axis_id }

/-- `AxisCommand.get_reference_mode()` (`qRON`): checks the native
return, then builds `ReferenceMode(mode)` from the out-parameter, which
raises `ValueError` for a value that is not 1 or 0. -/
def AxisCommand.get_reference_mode (env : Gcs2) (self : AxisCommand) :
    Except PIError ReferenceMode × List NativeCall :=
  let pr := env.PI_qRON self.ctrl_id self.axis_id
  let chk := ControllerCommand.check_error env self.ctrl_id pr.1
  (chk.1.bind (fun _ =>
      match ReferenceMode.ofInt pr.2 with
      | some m => .ok m
      | none => .error (.valueError
          (toString pr.2 ++ " is not a valid ReferenceMode"))),
    .PI_qRON self.ctrl_id self.axis_id :: chk.2)

/-- `AxisCommand.set_reference_mode(mode)` (`RON`). -/
def AxisCommand.set_reference_mode (env : Gcs2) (self : AxisCommand) (mode : Int) :
    Except PIError Unit × List NativeCall :=
  let ret := env.PI_RON self.ctrl_id self.axis_id mode
  let chk := ControllerCommand.check_error env self.ctrl_id ret
  (chk.1, .PI_RON self.ctrl_id self.axis_id mode :: chk.2)

/-- `AxisCommand.is_referenced()` (`qFRF`). -/
def AxisCommand.is_referenced (env : Gcs2) (self : AxisCommand) :
    Except PIError Bool × List NativeCall :=
  let pr := env.PI_qFRF self.ctrl_id self.axis_id
  let chk := ControllerCommand.check_error env self.ctrl_id pr.1
  (chk.1.map (fun _ => decide (pr.2 > 0)), .PI_qFRF self.ctrl_id self.axis_id :: chk.2)

/-- `AxisCommand.start_reference_movement(strategy=ReferenceSwitch)`:
dispatches on the strategy to `PI_FRF` / `PI_FNL` / `PI_FPL`; any other
value (the Python argument is an arbitrary object, modelled as `none`)
falls into the `else` branch, issues no native command and sets
`ret = 0`, which the subsequent `check_error` does not accept. -/
def AxisCommand.start_reference_movement (env : Gcs2) (self : AxisCommand)
    (strategy : Option ReferenceStrategy) :
    Except PIError Unit × List NativeCall :=
  let pr : Int × List NativeCall :=
    match strategy with
    | some .ReferenceSwitch =>
        (env.PI_FRF self.ctrl_id self.axis_id, [.PI_FRF self.ctrl_id self.axis_id])
    | some .NegativeLimit =>
        (env.PI_FNL self.ctrl_id self.axis_id, [.PI_FNL self.ctrl_id self.axis_id])
    | some .PositiveLimit =>
        (env.PI_FPL self.ctrl_id self.axis_id, [.PI_FPL self.ctrl_id self.axis_id])
    | none => (0, [])
  let chk := ControllerCommand.check_error env self.ctrl_id pr.1
  (chk.1, pr.2 ++ chk.2)

/-- `AxisCommand.go_to_home()` (`GOH`). -/
def AxisCommand.go_to_home (env : Gcs2) (self : AxisCommand) :
    Except PIError Unit × List NativeCall :=
  let ret := env.PI_GOH self.ctrl_id self.axis_id
  let chk := ControllerCommand.check_error env self.ctrl_id ret
  (chk.1, .PI_GOH self.ctrl_id self.axis_id :: chk.2)

/-- `AxisCommand.halt(axis="")` (`HLT`): the `axis` parameter is declared
but never read; the native call receives the stored `axis_id`. -/
def AxisCommand.halt (env : Gcs2) (self : AxisCommand) (axis : String) :
    Except PIError Unit × List NativeCall :=
  let _ := axis
  let ret := env.PI_HLT self.ctrl_id self.axis_id
  let chk := ControllerCommand.check_error env self.ctrl_id ret
  (chk.1, .PI_HLT self.ctrl_id self.axis_id :: chk.2)

/-- `AxisCommand.get_current_position()` (`qPOS`). -/
def AxisCommand.get_current_position (env : Gcs2) (self : AxisCommand) :
    Except PIError Float × List NativeCall :=
  let pr := env.PI_qPOS self.ctrl_id self.axis_id
  let chk := ControllerCommand.check_error env self.ctrl_id pr.1
  (chk.1.map (fun _ => pr.2), .PI_qPOS self.ctrl_id self.axis_id :: chk.2)

/-- `AxisCommand.set_current_position(value)` (`POS`). -/
def AxisCommand.set_current_position (env : Gcs2) (self : AxisCommand) (value : Float) :
    Except PIError Unit × List NativeCall :=
  let ret := env.PI_POS self.ctrl_id self.axis_id value
  let chk := ControllerCommand.check_error env self.ctrl_id ret
  (chk.1, .PI_POS self.ctrl_id self.axis_id value :: chk.2)

/-- `AxisCommand.set_target_position(value)` (`MOV`). -/
def AxisCommand.set_target_position (env : Gcs2) (self : AxisCommand) (value : Float) :
    Except PIError Unit × List NativeCall :=
  let ret := env.PI_MOV self.ctrl_id self.axis_id value
  let chk := ControllerCommand.check_error env self.ctrl_id ret
  (chk.1, .PI_MOV self.ctrl_id self.axis_id value :: chk.2)

/-- `AxisCommand.set_relative_target_position(value)` (`MVR`). -/
def AxisCommand.set_relative_target_position (env : Gcs2) (self : AxisCommand)
    (value : Float) : Except PIError Unit × List NativeCall :=
  let ret := env.PI_MVR self.ctrl_id self.axis_id value
  let chk := ControllerCommand.check_error env self.ctrl_id ret
  (chk.1, .PI_MVR self.ctrl_id self.axis_id value :: chk.2)

/-- `AxisCommand.get_velocity()` (`qVEL`). -/
def AxisCommand.get_velocity (env : Gcs2) (self : AxisCommand) :
    Except PIError Float × List NativeCall :=
  let pr := env.PI_qVEL self.ctrl_id self.axis_id
  let chk := ControllerCommand.check_error env self.ctrl_id pr.1
  (chk.1.map (fun _ => pr.2), .PI_qVEL self.ctrl_id self.axis_id :: chk.2)

/-- `AxisCommand.set_velocity(vel)` (`VEL`). -/
def AxisCommand.set_velocity (env : Gcs2) (self : AxisCommand) (vel : Float) :
    Except PIError Unit × List NativeCall :=
  let ret := env.PI_VEL self.ctrl_id self.axis_id vel
  let chk := ControllerCommand.check_error env self.ctrl_id ret
  (chk.1, .PI_VEL self.ctrl_id self.axis_id vel :: chk.2)

/-- `AxisCommand.get_acceleration()` (`qACC`). -/
def AxisCommand.get_acceleration (env : Gcs2) (self : AxisCommand) :
    Except PIError Float × List NativeCall :=
  let pr := env.PI_qACC self.ctrl_id self.axis_id
  let chk := ControllerCommand.check_error env self.ctrl_id pr.1
  (chk.1.map (fun _ => pr.2), .PI_qACC self.ctrl_id self.axis_id :: chk.2)

/-- `AxisCommand.set_acceleration(acc)` (`ACC`). -/
def AxisCommand.set_acceleration (env : Gcs2) (self : AxisCommand) (acc : Float) :
    Except PIError Unit × List NativeCall :=
  let ret := env.PI_ACC self.ctrl_id self.axis_id acc
  let chk := ControllerCommand.check_error env self.ctrl_id ret
  (chk.1, .PI_ACC self.ctrl_id self.axis_id acc :: chk.2)

/-- `AxisCommand.get_travel_range_min()` (`qTMN`). -/
def AxisCommand.get_travel_range_min (env : Gcs2) (self : AxisCommand) :
    Except PIError Float × List NativeCall :=
  let pr := env.PI_qTMN self.ctrl_id self.axis_id
  let chk := ControllerCommand.check_error env self.ctrl_id pr.1
  (chk.1.map (fun _ => pr.2), .PI_qTMN self.ctrl_id self.axis_id :: chk.2)

/-- `AxisCommand.get_travel_range_max()` (`qTMX`). -/
def AxisCommand.get_travel_range_max (env : Gcs2) (self : AxisCommand) :
    Except PIError Float × List NativeCall :=
  let pr := env.PI_qTMX self.ctrl_id self.axis_id
  let chk := ControllerCommand.check_error env self.ctrl_id pr.1
  (chk.1.map (fun _ => pr.2), .PI_qTMX self.ctrl_id self.axis_id :: chk.2)

/-- `AxisCommand.get_stage_type(nbytes=512)` (`qCST`). -/
def AxisCommand.get_stage_type (env : Gcs2) (self : AxisCommand) (nbytes : Int) :
    Except PIError String × List NativeCall :=
  if nbytes ≤ 0 then (.error (bufferShapeError nbytes), [])
  else
    let pr := env.PI_qCST self.ctrl_id self.axis_id nbytes
    let chk := ControllerCommand.check_error env self.ctrl_id pr.1
    (chk.1.map (fun _ => decodeAsciiReplace (cstr (pr.2.take nbytes.toNat))),
      .PI_qCST self.ctrl_id self.axis_id nbytes :: chk.2)

/-- `AxisCommand.get_parameter(parameter, volatile=False, nelem=1,
nbytes=64)` (`qSPA` when volatile, `qSEP` when persisted): allocates a
value buffer of `nelem` doubles and a string buffer of `nbytes` chars,
issues exactly one of the two native queries, checks the return, and
yields the values with the decoded string. -/
def AxisCommand.get_parameter (env : Gcs2) (self : AxisCommand) (parameter : Nat)
    (volatile : Bool) (nelem : Int) (nbytes : Int) :
    Except PIError (List Float × String) × List NativeCall :=
  if nelem ≤ 0 then (.error (bufferShapeError nelem), [])
  else if nbytes ≤ 0 then (.error (bufferShapeError nbytes), [])
  else
    let pr : (Int × List Float × List Nat) × NativeCall :=
      if volatile then
        (env.PI_qSPA self.ctrl_id self.axis_id parameter nbytes,
          .PI_qSPA self.ctrl_id self.axis_id parameter nbytes)
      else
        (env.PI_qSEP self.ctrl_id self.axis_id parameter nbytes,
          .PI_qSEP self.ctrl_id self.axis_id parameter nbytes)
    let chk := ControllerCommand.check_error env self.ctrl_id pr.1.1
    (chk.1.map (fun _ =>
        (pr.1.2.1.take nelem.toNat,
          decodeAsciiReplace (cstr (pr.1.2.2.take nbytes.toNat)))),
      pr.2 :: chk.2)

/-- `AxisCommand.set_parameter(parameter, values, string,
volatile=False, nbytes=64)` (`SPA` when volatile, `SEP` when persisted):
the persisted variant passes the fixed password / command-group prefix
string `"100"` as the second native argument; the volatile variant has
no such argument. `nbytes` is declared but unused in the source. -/
def AxisCommand.set_parameter (env : Gcs2) (self : AxisCommand) (parameter : Nat)
    (values : List Float) (string : String) (volatile : Bool) (nbytes : Int) :
    Except PIError Unit × List NativeCall :=
  let _ := nbytes
  let c_string := encodeAscii string
  let pr : Int × NativeCall :=
    if volatile then
      (env.PI_SPA self.ctrl_id self.axis_id parameter values c_string,
        .PI_SPA self.ctrl_id self.axis_id parameter values c_string)
    else
      (env.PI_SEP self.ctrl_id (encodeAscii "100") self.axis_id parameter values c_string,
        .PI_SEP self.ctrl_id (encodeAscii "100") self.axis_id parameter values c_string)
  let chk := ControllerCommand.check_error env self.ctrl_id pr.1
  (chk.1, pr.2 :: chk.2)

/-- `AxisCommand.set_servo_state(state)` (`SVO`). -/
def AxisCommand.set_servo_state (env : Gcs2) (self : AxisCommand) (state : Int) :
    Except PIError Unit × List NativeCall :=
  let ret := env.PI_SVO self.ctrl_id self.axis_id state
  let chk := ControllerCommand.check_error env self.ctrl_id ret
  (chk.1, .PI_SVO self.ctrl_id self.axis_id state :: chk.2)

/-- The operation returned normally (no Python exception was raised). -/
def Succeeds {α} : Except PIError α → Prop
  | .ok _ => True
  | .error _ => False

instance {α} : (r : Except PIError α) → Decidable (Succeeds r)
  | .ok _ => .isTrue trivial
  | .error _ => .isFalse fun h => h

theorem succeeds_map {α β} (f : α → β) (r : Except PIError α) :
    Succeeds (r.map f) ↔ Succeeds r := by
  cases r <;> simp [Except.map, Succeeds]

/-- The exception `ControllerCommand.check_error` raises on failure: the
translation of the controller's last error id (or the translator's own
failure), independent of the failing command's return value. -/
def ctrlFailure (env : Gcs2) (ctrl_id : Int) : PIError :=
  match (translate_error env (env.PI_GetError ctrl_id) 1024).1 with
  | .ok msg => .runtimeError msg
  | .error e => e

/-- The exception `Communication.check_error` raises on a negative
return `ret`: the translation of `ret` itself. -/
def commFailure (env : Gcs2) (ret : Int) : PIError :=
  match (translate_error env ret 1024).1 with
  | .ok msg => .runtimeError msg
  | .error e => e

/-- The controller/axis error protocol as the spec states it: the result
succeeds exactly when the native return `ret` is strictly positive, and
on failure the raised error is built from `PI_GetError`, never from
`ret`. -/
def ChecksCtrlError {α} (env : Gcs2) (ctrl_id : Int) (ret : Int)
    (res : Except PIError α) : Prop :=
  (Succeeds res ↔ 0 < ret) ∧ (ret ≤ 0 → res = .error (ctrlFailure env ctrl_id))

/-- The communication-layer error protocol as the spec states it: the
result succeeds exactly when the native return `ret` is non-negative,
and a negative `ret` raises its own translation. -/
def ChecksCommError {α} (env : Gcs2) (ret : Int) (res : Except PIError α) : Prop :=
  (Succeeds res ↔ 0 ≤ ret) ∧ (ret < 0 → res = .error (commFailure env ret))

theorem ControllerCommand.check_error_of_pos {env : Gcs2} {c r : Int} (h : r > 0) :
    ControllerCommand.check_error env c r = (.ok (), []) := by
  simp [ControllerCommand.check_error, h]

theorem ControllerCommand.check_error_fst_of_nonpos {env : Gcs2} {c r : Int}
    (h : r ≤ 0) : (ControllerCommand.check_error env c r).1 = .error (ctrlFailure env c) := by
  have h' : ¬ r > 0 := by omega
  simp only [ControllerCommand.check_error, if_neg h', ctrlFailure]
  cases htr : (translate_error env (env.PI_GetError c) 1024).1 <;> simp [htr]

theorem checksCtrl_unit (env : Gcs2) (c r : Int) :
    ChecksCtrlError env c r (ControllerCommand.check_error env c r).1 := by
  constructor
  · by_cases h : r > 0
    · rw [ControllerCommand.check_error_of_pos h]
      simp [Succeeds, h]
    · rw [ControllerCommand.check_error_fst_of_nonpos (by omega)]
      simp [Succeeds]
      omega
  · intro h
    exact ControllerCommand.check_error_fst_of_nonpos h

theorem checksCtrl_map {α} (env : Gcs2) (c r : Int) (f : Unit → α) :
    ChecksCtrlError env c r ((ControllerCommand.check_error env c r).1.map f) := by
  constructor
  · rw [succeeds_map]
    exact (checksCtrl_unit env c r).1
  · intro h
    rw [ControllerCommand.check_error_fst_of_nonpos h]
    rfl

theorem Communication.check_error_of_nonneg {env : Gcs2} {r : Int} (h : 0 ≤ r) :
    Communication.check_error env r = (.ok (), []) := by
  have h' : ¬ r < 0 := by omega
  simp [Communication.check_error, h']

theorem Communication.check_error_fst_of_neg {env : Gcs2} {r : Int} (h : r < 0) :
    (Communication.check_error env r).1 = .error (commFailure env r) := by
  simp only [Communication.check_error, if_pos h, commFailure]
  cases htr : (translate_error env r 1024).1 <;> simp [htr]

theorem checksComm_unit (env : Gcs2) (r : Int) :
    ChecksCommError env r (Communication.check_error env r).1 := by
  constructor
  · by_cases h : r < 0
    · rw [Communication.check_error_fst_of_neg h]
      simp [Succeeds]
      omega
    · rw [Communication.check_error_of_nonneg (by omega)]
      simp [Succeeds]
      omega
  · intro h
    exact Communication.check_error_fst_of_neg h

theorem checksComm_map {α} (env : Gcs2) (r : Int) (f : Unit → α) :
    ChecksCommError env r ((Communication.check_error env r).1.map f) := by
  constructor
  · rw [succeeds_map]
    exact (checksComm_unit env r).1
  · intro h
    rw [Communication.check_error_fst_of_neg h]
    rfl

theorem translate_error_snd_mem {env : Gcs2} {e n : Int} :
    ∀ x ∈ (translate_error env e n).2, x = NativeCall.PI_TranslateError e n := by
  intro x hx
  by_cases h : n ≤ 0
  · simp [translate_error, h] at hx
  · simp only [translate_error, if_neg h] at hx
    by_cases h2 : (env.PI_TranslateError e n).1 > 0 <;> simp [h2] at hx <;> exact hx

theorem ControllerCommand.check_error_snd_mem {env : Gcs2} {c r : Int} :
    ∀ x ∈ (ControllerCommand.check_error env c r).2,
      x = NativeCall.PI_GetError c ∨
        x = NativeCall.PI_TranslateError (env.PI_GetError c) 1024 := by
  intro x hx
  by_cases h : r > 0
  · simp [ControllerCommand.check_error, h] at hx
  · simp only [ControllerCommand.check_error, if_neg h] at hx
    cases htr : (translate_error env (env.PI_GetError c) 1024).1 <;>
      simp [htr] at hx <;>
      rcases hx with hx | hx
    · exact .inl hx
    · exact .inr (translate_error_snd_mem x hx)
    · exact .inl hx
    · exact .inr (translate_error_snd_mem x hx)

/-- Is this native call one of the three reference-movement entry
points? -/
def NativeCall.isRefMovement : NativeCall → Bool
  | .PI_FRF _ _ => true
  | .PI_FNL _ _ => true
  | .PI_FPL _ _ => true
  | _ => false

/-- Is this native call one of the four parameter entry points
(`SPA`/`SEP`/`qSPA`/`qSEP`)? -/
def NativeCall.isParameterCmd : NativeCall → Bool
  | .PI_SPA _ _ _ _ _ => true
  | .PI_SEP _ _ _ _ _ _ => true
  | .PI_qSPA _ _ _ _ => true
  | .PI_qSEP _ _ _ _ => true
  | _ => false

/-- The axis identifier an axis-scoped native entry point was handed
(`none` for entry points that do not take a single-axis argument from an
`AxisCommand` handle). -/
def NativeCall.axisArg : NativeCall → Option (List Nat)
  | .PI_qRON _ a => some a
  | .PI_RON _ a _ => some a
  | .PI_qFRF _ a => some a
  | .PI_FRF _ a => some a
  | .PI_FNL _ a => some a
  | .PI_FPL _ a => some a
  | .PI_GOH _ a => some a
  | .PI_HLT _ a => some a
  | .PI_qPOS _ a => some a
  | .PI_POS _ a _ => some a
  | .PI_MOV _ a _ => some a
  | .PI_MVR _ a _ => some a
  | .PI_qVEL _ a => some a
  | .PI_VEL _ a _ => some a
  | .PI_qACC _ a => some a
  | .PI_ACC _ a _ => some a
  | .PI_qTMN _ a => some a
  | .PI_qTMX _ a => some a
  | .PI_qCST _ a _ => some a
  | .PI_qSPA _ a _ _ => some a
  | .PI_qSEP _ a _ _ => some a
  | .PI_SPA _ a _ _ _ => some a
  | .PI_SEP _ _ a _ _ _ => some a
  | .PI_SVO _ a _ => some a
  | _ => none

/-- Every native call in a trace either takes no single-axis argument or
is handed exactly the handle's stored `axis_id`. -/
def PassesOnlyOwnAxis (self : AxisCommand) (tr : List NativeCall) : Prop :=
  ∀ x ∈ tr, x.axisArg = none ∨ x.axisArg = some self.axis_id

theorem passesOnlyOwnAxis_nil (self : AxisCommand) : PassesOnlyOwnAxis self [] := by
  intro x hx
  simp at hx

theorem passesOnlyOwnAxis_cons {self : AxisCommand} {x : NativeCall}
    {tr : List NativeCall}
    (hx : x.axisArg = none ∨ x.axisArg = some self.axis_id)
    (htr : PassesOnlyOwnAxis self tr) : PassesOnlyOwnAxis self (x :: tr) := by
  intro y hy
  rcases List.mem_cons.mp hy with rfl | hy
  · exact hx
  · exact htr y hy

theorem check_error_passesOnlyOwnAxis (self : AxisCommand) (env : Gcs2) (c r : Int) :
    PassesOnlyOwnAxis self (ControllerCommand.check_error env c r).2 := by
  intro x hx
  rcases ControllerCommand.check_error_snd_mem x hx with rfl | rfl <;>
    simp [NativeCall.axisArg]

theorem check_error_filter_refMovement (env : Gcs2) (c r : Int) :
    (ControllerCommand.check_error env c r).2.filter NativeCall.isRefMovement = [] := by
  rw [List.filter_eq_nil_iff]
  intro x hx
  rcases ControllerCommand.check_error_snd_mem x hx with rfl | rfl <;>
    simp [NativeCall.isRefMovement]

theorem check_error_filter_parameterCmd (env : Gcs2) (c r : Int) :
    (ControllerCommand.check_error env c r).2.filter NativeCall.isParameterCmd = [] := by
  rw [List.filter_eq_nil_iff]
  intro x hx
  rcases ControllerCommand.check_error_snd_mem x hx with rfl | rfl <;>
    simp [NativeCall.isParameterCmd]

/-- A concrete native library in which every entry point reports success
(return code 1) and writes empty buffers; used to instantiate the
theorems on explicit inputs. -/
def envOk : Gcs2 where
  PI_EnumerateUSB := fun _ _ => (1, [])
  PI_ConnectUSB := fun _ => 1
  PI_ConnectUSBWithBaudRate := fun _ _ => 1
  PI_TryConnectUSB := fun _ => 1
  PI_IsConnecting := fun _ => (1, 1)
  PI_GetControllerID := fun _ => 1
  PI_IsConnected := fun _ => 1
  PI_SetDaisyChainScanMaxDeviceID := fun _ => 1
  PI_OpenUSBDaisyChain := fun _ _ => (1, 1, [])
  PI_ConnectDaisyChainDevice := fun _ _ => 1
  PI_CloseDaisyChain := fun _ => 1
  PI_CloseConnection := fun _ => 1
  PI_TranslateError := fun _ _ => (1, [])
  PI_GetError := fun _ => 1
  PI_SetErrorCheck := fun _ _ => 1
  PI_IsMoving := fun _ _ => (1, 1)
  PI_IsControllerReady := fun _ => (1, 1)
  PI_IsRunningMacro := fun _ => (1, 0)
  PI_qSAI_ALL := fun _ _ => (1, [])
  PI_qSAI := fun _ _ => (1, [])
  PI_StopAll := fun _ => 1
  PI_qHLP := fun _ _ => (1, [])
  PI_qIDN := fun _ _ => (1, [])
  PI_qHPA := fun _ _ => (1, [])
  PI_qTVI := fun _ _ => (1, [])
  PI_qVER := fun _ _ => (1, [])
  PI_qRON := fun _ _ => (1, 1)
  PI_RON := fun _ _ _ => 1
  PI_qFRF := fun _ _ => (1, 1)
  PI_FRF := fun _ _ => 1
  PI_FNL := fun _ _ => 1
  PI_FPL := fun _ _ => 1
  PI_GOH := fun _ _ => 1
  PI_HLT := fun _ _ => 1
  PI_qPOS := fun _ _ => (1, 0.0)
  PI_POS := fun _ _ _ => 1
  PI_MOV := fun _ _ _ => 1
  PI_MVR := fun _ _ _ => 1
  PI_qVEL := fun _ _ => (1, 0.0)
  PI_VEL := fun _ _ _ => 1
  PI_qACC := fun _ _ => (1, 0.0)
  PI_ACC := fun _ _ _ => 1
  PI_qTMN := fun _ _ => (1, 0.0)
  PI_qTMX := fun _ _ => (1, 0.0)
  PI_qCST := fun _ _ _ => (1, [])
  PI_qSPA := fun _ _ _ _ => (1, [], [])
  PI_qSEP := fun _ _ _ _ => (1, [], [])
  PI_SPA := fun _ _ _ _ _ => 1
  PI_SEP := fun _ _ _ _ _ _ => 1
  PI_SVO := fun _ _ _ => 1

/-- A native library identical to `envOk` except that `PI_qRON` reports
success (return 1) while writing 5 — not a valid `ReferenceMode` value —
into its out-parameter. -/
def envBadMode : Gcs2 :=
  { envOk with PI_qRON := fun _ _ => (1, 5) }

/-- A native library identical to `envOk` except that `PI_TranslateError`
always fails with -1. -/
def envBadTranslate : Gcs2 :=
  { envOk with PI_TranslateError := fun _ _ => (-1, []) }

/-- Claim C4 (amended): for every error code and every positive buffer
size `nbytes`, `translate_error` raises the sizing assertion exactly
when the native `PI_TranslateError` call returns a non-positive value,
and otherwise returns the buffer contents decoded as ASCII with lossy
replacement; the declared default buffer size is 1024 bytes. (For a
non-positive `nbytes` the buffer allocation itself raises a `ValueError`
before the native call is ever made, so the claim is restricted to
positive sizes.) -/
theorem translate_error_sizing_spec (env : Gcs2) (err_id nbytes : Int)
    (h : 0 < nbytes) :
    ((translate_error env err_id nbytes).1 = .error (.assertionError
        ("message buffer (" ++ toString nbytes ++ " bytes) is too small"))
      ↔ (env.PI_TranslateError err_id nbytes).1 ≤ 0)
  ∧ (0 < (env.PI_TranslateError err_id nbytes).1 →
      (translate_error env err_id nbytes).1 =
        .ok (decodeAsciiReplace (cstr
          ((env.PI_TranslateError err_id nbytes).2.take nbytes.toNat))))
  ∧ translate_error_default env err_id = translate_error env err_id 1024 := by
  have h' : ¬ nbytes ≤ 0 := by omega
  refine ⟨?_, ?_, rfl⟩
  · simp only [translate_error, if_neg h']
    by_cases h2 : (env.PI_TranslateError err_id nbytes).1 > 0
    · simp only [if_pos h2]
      constructor
      · intro he
        cases he
      · intro hle
        omega
    · simp only [if_neg h2]
      constructor
      · intro _
        omega
      · intro _
        trivial
  · intro h2
    simp only [translate_error, if_neg h', if_pos h2]

theorem translate_error_sizing_spec_witness :
    (0 : Int) < 16 ∧ (translate_error envOk 3 16).1 =
      .ok (decodeAsciiReplace (cstr ((envOk.PI_TranslateError 3 16).2.take (16 : Int).toNat))) :=
  ⟨by decide, (translate_error_sizing_spec envOk 3 16 (by decide)).2.1 (by decide)⟩

/-- Claim C4 counterexample: at buffer size 0 (a value the claim's
"every buffer size" quantifier covers) with a native translator whose
return is non-positive, the raised error is the allocation `ValueError`,
not the sizing assertion the claim requires. -/
theorem translate_error_sizing_cx :
    (envBadTranslate.PI_TranslateError 5 0).1 ≤ 0 ∧
    (translate_error envBadTranslate 5 0).1 = .error (bufferShapeError 0) ∧
    ∀ msg : String, bufferShapeError 0 ≠ PIError.assertionError msg :=
  ⟨by decide, rfl, fun _ h => by cases h⟩

/-- Claim C6: `is_connected` never raises and returns `ret > 0`; the two
cleanup calls never raise and perform no error check (the native return
is ignored entirely). -/
theorem connection_state_and_cleanup_never_raise (env : Gcs2)
    (ctrl_id daisy_id other_id : Int) :
    (Communication.is_connected env ctrl_id).1 =
      .ok (decide (env.PI_IsConnected ctrl_id > 0))
  ∧ ((Communication.is_connected env ctrl_id).1 = .ok true ↔
      0 < env.PI_IsConnected ctrl_id)
  ∧ Communication.close_daisy_chain env daisy_id =
      (.ok (), [.PI_CloseDaisyChain daisy_id])
  ∧ Communication.close_connection env other_id =
      (.ok (), [.PI_CloseConnection other_id]) := by
  refine ⟨rfl, ?_, rfl, rfl⟩
  simp [Communication.is_connected]

/-- Claim C7: each recognized reference strategy issues exactly one
reference-movement native call, and it is that strategy's own entry
point (`PI_FRF`, `PI_FNL`, `PI_FPL` respectively), applied to the
handle's controller and axis ids. -/
theorem reference_strategy_distinct_entry_points (env : Gcs2) (self : AxisCommand) :
    (AxisCommand.start_reference_movement env self (some .ReferenceSwitch)).2.filter
        NativeCall.isRefMovement = [.PI_FRF self.ctrl_id self.axis_id]
  ∧ (AxisCommand.start_reference_movement env self (some .NegativeLimit)).2.filter
        NativeCall.isRefMovement = [.PI_FNL self.ctrl_id self.axis_id]
  ∧ (AxisCommand.start_reference_movement env self (some .PositiveLimit)).2.filter
        NativeCall.isRefMovement = [.PI_FPL self.ctrl_id self.axis_id] := by
  refine ⟨?_, ?_, ?_⟩ <;>
    simp [AxisCommand.start_reference_movement, List.filter_append,
      check_error_filter_refMovement, NativeCall.isRefMovement, List.filter]

/-- Claim C3 (amended): an unrecognized strategy issues no native
reference-movement call, but it does not report success: the `else`
branch sets the return code to 0, which `check_error` rejects, so the
operation raises the translation of the controller's last error. -/
theorem unrecognized_strategy_raises_last_error (env : Gcs2) (self : AxisCommand) :
    (AxisCommand.start_reference_movement env self none).2.filter
        NativeCall.isRefMovement = []
  ∧ (AxisCommand.start_reference_movement env self none).1 =
      .error (ctrlFailure env self.ctrl_id) := by
  constructor
  · simp [AxisCommand.start_reference_movement, check_error_filter_refMovement]
  · simp only [AxisCommand.start_reference_movement]
    exact ControllerCommand.check_error_fst_of_nonpos (by omega)

/-- Claim C3 counterexample: on a concrete environment an unrecognized
strategy value makes `start_reference_movement` raise instead of
reporting success. -/
theorem unrecognized_strategy_success_cx :
    ¬ Succeeds (AxisCommand.start_reference_movement envOk
      (AxisCommand.cinit 1 "A") none).1 := by decide

/-- Claim C8 (amended): the two axis-enablement stubs are silent no-ops:
for every argument they return `None` without raising and issue no
native call (the bodies are `pass`). -/
theorem axes_enable_status_stubs_return_none (env : Gcs2)
    (self : ControllerCommand) (axes : String) (state : Bool) :
    ControllerCommand.get_axes_enable_status env self axes = (.ok (), [])
  ∧ ControllerCommand.set_axes_enable_status env self axes state = (.ok (), []) :=
  ⟨rfl, rfl⟩

/-- Claim C8 counterexample: at a concrete argument neither stub raises
anything, contradicting "raises a not-implemented error for every
argument". -/
theorem axes_enable_status_stubs_cx :
    Succeeds (ControllerCommand.get_axes_enable_status envOk
        (ControllerCommand.cinit 1) "1").1
  ∧ Succeeds (ControllerCommand.set_axes_enable_status envOk
        (ControllerCommand.cinit 1) "1" true).1 :=
  ⟨trivial, trivial⟩

/-- Claim C10: the `axis` parameter of `halt` is never read — any two
argument values yield identical results and traces — and the native
`PI_HLT` call always receives the handle's stored controller and axis
ids. -/
theorem halt_axis_argument_irrelevant (env : Gcs2) (self : AxisCommand)
    (a b : String) :
    AxisCommand.halt env self a = AxisCommand.halt env self b
  ∧ (AxisCommand.halt env self a).2.head? =
      some (.PI_HLT self.ctrl_id self.axis_id) :=
  ⟨rfl, rfl⟩

/-- Claim C2: every `Communication` operation other than `is_connected`,
`close_daisy_chain` and `close_connection` routes its own native return
code through the shared check: it raises the translated message of that
return code whenever the code is negative, and returns normally whenever
it is non-negative. -/
theorem communication_ops_route_through_check (env : Gcs2) :
    (∀ (keyword : String) (nbytes : Int), 0 < nbytes →
      ChecksCommError env (env.PI_EnumerateUSB nbytes (encodeAscii keyword)).1
        (Communication.enumerate_usb env keyword nbytes).1)
  ∧ (∀ (desc : String) (baudrate : Int),
      ChecksCommError env
        (if baudrate < 0 then env.PI_ConnectUSB (encodeAscii desc)
          else env.PI_ConnectUSBWithBaudRate (encodeAscii desc) baudrate)
        (Communication.connect_usb env desc baudrate).1)
  ∧ (∀ desc : String,
      ChecksCommError env (env.PI_TryConnectUSB (encodeAscii desc))
        (Communication.try_connect_usb env desc).1)
  ∧ (∀ thread_id : Int,
      ChecksCommError env (env.PI_IsConnecting thread_id).1
        (Communication.is_connecting env thread_id).1)
  ∧ (∀ thread_id : Int,
      ChecksCommError env (env.PI_GetControllerID thread_id)
        (Communication.get_controller_id env thread_id).1)
  ∧ (∀ max_id : Int,
      ChecksCommError env (env.PI_SetDaisyChainScanMaxDeviceID max_id)
        (Communication.set_daisy_chain_scan_max_device_id env max_id).1)
  ∧ (∀ (desc : String) (nbytes : Int), 0 < nbytes →
      ChecksCommError env (env.PI_OpenUSBDaisyChain (encodeAscii desc) nbytes).1
        (Communication.open_usb_daisy_chain env desc nbytes).1)
  ∧ (∀ daisy_id index : Int,
      ChecksCommError env (env.PI_ConnectDaisyChainDevice daisy_id index)
        (Communication.connect_daisy_chain_device env daisy_id index).1) := by
  refine ⟨?_, ?_, ?_, ?_, ?_, ?_, ?_, ?_⟩
  · intro keyword nbytes hn
    simp only [Communication.enumerate_usb, if_neg (by omega : ¬ nbytes ≤ 0)]
    exact checksComm_map _ _ _
  · intro desc baudrate
    by_cases hb : baudrate < 0
    · simp only [Communication.connect_usb, if_pos hb]
      exact checksComm_map _ _ _
    · simp only [Communication.connect_usb, if_neg hb]
      exact checksComm_map _ _ _
  · intro desc
    simp only [Communication.try_connect_usb]
    exact checksComm_map _ _ _
  · intro thread_id
    simp only [Communication.is_connecting]
    exact checksComm_map _ _ _
  · intro thread_id
    simp only [Communication.get_controller_id]
    exact checksComm_map _ _ _
  · intro max_id
    simp only [Communication.set_daisy_chain_scan_max_device_id]
    exact checksComm_unit _ _
  · intro desc nbytes hn
    simp only [Communication.open_usb_daisy_chain, if_neg (by omega : ¬ nbytes ≤ 0)]
    exact checksComm_map _ _ _
  · intro daisy_id index
    simp only [Communication.connect_daisy_chain_device]
    exact checksComm_map _ _ _

theorem communication_ops_route_through_check_witness :
    (0 : Int) < 4 ∧ Succeeds (Communication.enumerate_usb envOk "" 4).1 :=
  ⟨by decide,
    ((communication_ops_route_through_check envOk).1 "" 4 (by decide)).1.mpr
      (by decide)⟩

/-- Claim C5: `set_parameter` issues exactly one parameter entry-point
call — `PI_SPA` (no command-group prefix argument) when volatile,
`PI_SEP` with the fixed prefix `"100"` when persisted — and
`get_parameter` likewise issues exactly `PI_qSPA` when volatile and
`PI_qSEP` when persisted. -/
theorem parameter_volatility_routing (env : Gcs2) (self : AxisCommand)
    (parameter : Nat) (values : List Float) (string : String)
    (nelem nbytes : Int) :
    ((AxisCommand.set_parameter env self parameter values string true nbytes).2.filter
        NativeCall.isParameterCmd =
      [.PI_SPA self.ctrl_id self.axis_id parameter values (encodeAscii string)])
  ∧ ((AxisCommand.set_parameter env self parameter values string false nbytes).2.filter
        NativeCall.isParameterCmd =
      [.PI_SEP self.ctrl_id (encodeAscii "100") self.axis_id parameter values
        (encodeAscii string)])
  ∧ (0 < nelem → 0 < nbytes →
      (AxisCommand.get_parameter env self parameter true nelem nbytes).2.filter
          NativeCall.isParameterCmd =
        [.PI_qSPA self.ctrl_id self.axis_id parameter nbytes])
  ∧ (0 < nelem → 0 < nbytes →
      (AxisCommand.get_parameter env self parameter false nelem nbytes).2.filter
          NativeCall.isParameterCmd =
        [.PI_qSEP self.ctrl_id self.axis_id parameter nbytes]) := by
  refine ⟨?_, ?_, ?_, ?_⟩
  · simp [AxisCommand.set_parameter, List.filter,
      check_error_filter_parameterCmd, NativeCall.isParameterCmd]
  · simp [AxisCommand.set_parameter, List.filter,
      check_error_filter_parameterCmd, NativeCall.isParameterCmd]
  · intro h1 h2
    simp [AxisCommand.get_parameter, if_neg (by omega : ¬ nelem ≤ 0),
      if_neg (by omega : ¬ nbytes ≤ 0), List.filter,
      check_error_filter_parameterCmd, NativeCall.isParameterCmd]
  · intro h1 h2
    simp [AxisCommand.get_parameter, if_neg (by omega : ¬ nelem ≤ 0),
      if_neg (by omega : ¬ nbytes ≤ 0), List.filter,
      check_error_filter_parameterCmd, NativeCall.isParameterCmd]

theorem parameter_volatility_routing_witness :
    (0 : Int) < 1 ∧ (0 : Int) < 4 ∧
    (AxisCommand.get_parameter envOk (AxisCommand.cinit 2 "X") 7 true 1 4).2.filter
      NativeCall.isParameterCmd = [.PI_qSPA 2 (encodeAscii "X") 7 4] :=
  ⟨by decide, by decide,
    (parameter_volatility_routing envOk (AxisCommand.cinit 2 "X") 7 [] "" 1 4).2.2.1
      (by decide) (by decide)⟩

/-- Claim C9: the axis identifier is the constructor's `axis_id` string
ASCII-encoded, nothing ever reassigns it (the handle is immutable data;
`axis_id` is declared `readonly` in the source), and every axis-scoped
operation hands exactly the stored identifier to each native call that
takes a single-axis argument. -/
theorem axis_id_fixed_and_threaded (env : Gcs2) (ctrl_id : Int)
    (axis_str : String) (self : AxisCommand) :
    (AxisCommand.cinit ctrl_id axis_str).ctrl_id = ctrl_id
  ∧ (AxisCommand.cinit ctrl_id axis_str).axis_id = encodeAscii axis_str
  ∧ PassesOnlyOwnAxis self (AxisCommand.get_reference_mode env self).2
  ∧ (∀ mode, PassesOnlyOwnAxis self (AxisCommand.set_reference_mode env self mode).2)
  ∧ PassesOnlyOwnAxis self (AxisCommand.is_referenced env self).2
  ∧ (∀ strategy,
      PassesOnlyOwnAxis self (AxisCommand.start_reference_movement env self strategy).2)
  ∧ PassesOnlyOwnAxis self (AxisCommand.go_to_home env self).2
  ∧ (∀ axis, PassesOnlyOwnAxis self (AxisCommand.halt env self axis).2)
  ∧ PassesOnlyOwnAxis self (AxisCommand.get_current_position env self).2
  ∧ (∀ v, PassesOnlyOwnAxis self (AxisCommand.set_current_position env self v).2)
  ∧ (∀ v, PassesOnlyOwnAxis self (AxisCommand.set_target_position env self v).2)
  ∧ (∀ v, PassesOnlyOwnAxis self (AxisCommand.set_relative_target_position env self v).2)
  ∧ PassesOnlyOwnAxis self (AxisCommand.get_velocity env self).2
  ∧ (∀ v, PassesOnlyOwnAxis self (AxisCommand.set_velocity env self v).2)
  ∧ PassesOnlyOwnAxis self (AxisCommand.get_acceleration env self).2
  ∧ (∀ v, PassesOnlyOwnAxis self (AxisCommand.set_acceleration env self v).2)
  ∧ PassesOnlyOwnAxis self (AxisCommand.get_travel_range_min env self).2
  ∧ PassesOnlyOwnAxis self (AxisCommand.get_travel_range_max env self).2
  ∧ (∀ nbytes, PassesOnlyOwnAxis self (AxisCommand.get_stage_type env self nbytes).2)
  ∧ (∀ parameter volatile nelem nbytes,
      PassesOnlyOwnAxis self
        (AxisCommand.get_parameter env self parameter volatile nelem nbytes).2)
  ∧ (∀ parameter values string volatile nbytes,
      PassesOnlyOwnAxis self
        (AxisCommand.set_parameter env self parameter values string volatile nbytes).2)
  ∧ (∀ state, PassesOnlyOwnAxis self (AxisCommand.set_servo_state env self state).2) := by
  refine ⟨rfl, rfl, ?_, ?_, ?_, ?_, ?_, ?_, ?_, ?_, ?_, ?_, ?_, ?_, ?_, ?_, ?_,
    ?_, ?_, ?_, ?_, ?_⟩
  · exact passesOnlyOwnAxis_cons (Or.inr rfl) (check_error_passesOnlyOwnAxis _ _ _ _)
  · intro mode
    exact passesOnlyOwnAxis_cons (Or.inr rfl) (check_error_passesOnlyOwnAxis _ _ _ _)
  · exact passesOnlyOwnAxis_cons (Or.inr rfl) (check_error_passesOnlyOwnAxis _ _ _ _)
  · intro strategy
    rcases strategy with _ | s
    · exact check_error_passesOnlyOwnAxis _ _ _ _
    · cases s <;>
        exact passesOnlyOwnAxis_cons (Or.inr rfl) (check_error_passesOnlyOwnAxis _ _ _ _)
  · exact passesOnlyOwnAxis_cons (Or.inr rfl) (check_error_passesOnlyOwnAxis _ _ _ _)
  · intro axis
    exact passesOnlyOwnAxis_cons (Or.inr rfl) (check_error_passesOnlyOwnAxis _ _ _ _)
  · exact passesOnlyOwnAxis_cons (Or.inr rfl) (check_error_passesOnlyOwnAxis _ _ _ _)
  · intro v
    exact passesOnlyOwnAxis_cons (Or.inr rfl) (check_error_passesOnlyOwnAxis _ _ _ _)
  · intro v
    exact passesOnlyOwnAxis_cons (Or.inr rfl) (check_error_passesOnlyOwnAxis _ _ _ _)
  · intro v
    exact passesOnlyOwnAxis_cons (Or.inr rfl) (check_error_passesOnlyOwnAxis _ _ _ _)
  · exact passesOnlyOwnAxis_cons (Or.inr rfl) (check_error_passesOnlyOwnAxis _ _ _ _)
  · intro v
    exact passesOnlyOwnAxis_cons (Or.inr rfl) (check_error_passesOnlyOwnAxis _ _ _ _)
  · exact passesOnlyOwnAxis_cons (Or.inr rfl) (check_error_passesOnlyOwnAxis _ _ _ _)
  · intro v
    exact passesOnlyOwnAxis_cons (Or.inr rfl) (check_error_passesOnlyOwnAxis _ _ _ _)
  · exact passesOnlyOwnAxis_cons (Or.inr rfl) (check_error_passesOnlyOwnAxis _ _ _ _)
  · exact passesOnlyOwnAxis_cons (Or.inr rfl) (check_error_passesOnlyOwnAxis _ _ _ _)
  · intro nbytes
    by_cases hn : nbytes ≤ 0
    · simp only [AxisCommand.get_stage_type, if_pos hn]
      exact passesOnlyOwnAxis_nil _
    · simp only [AxisCommand.get_stage_type, if_neg hn]
      exact passesOnlyOwnAxis_cons (Or.inr rfl) (check_error_passesOnlyOwnAxis _ _ _ _)
  · intro parameter volatile nelem nbytes
    by_cases h1 : nelem ≤ 0
    · simp only [AxisCommand.get_parameter, if_pos h1]
      exact passesOnlyOwnAxis_nil _
    · by_cases h2 : nbytes ≤ 0
      · simp only [AxisCommand.get_parameter, if_neg h1, if_pos h2]
        exact passesOnlyOwnAxis_nil _
      · cases volatile <;>
          simp only [AxisCommand.get_parameter, if_neg h1, if_neg h2] <;>
          exact passesOnlyOwnAxis_cons (Or.inr rfl) (check_error_passesOnlyOwnAxis _ _ _ _)
  · intro parameter values string volatile nbytes
    cases volatile <;>
      exact passesOnlyOwnAxis_cons (Or.inr rfl) (check_error_passesOnlyOwnAxis _ _ _ _)
  · intro state
    exact passesOnlyOwnAxis_cons (Or.inr rfl) (check_error_passesOnlyOwnAxis _ _ _ _)

/-- The native return code `start_reference_movement` hands to
`check_error`: the chosen entry point's return for a recognized
strategy, the synthetic 0 (with no native call issued) otherwise. -/
def refRet (env : Gcs2) (self : AxisCommand) : Option ReferenceStrategy → Int
  | some .ReferenceSwitch => env.PI_FRF self.ctrl_id self.axis_id
  | some .NegativeLimit => env.PI_FNL self.ctrl_id self.axis_id
  | some .PositiveLimit => env.PI_FPL self.ctrl_id self.axis_id
  | none => 0

/-- Claim C1 (amended): every `ControllerCommand` / `AxisCommand`
operation that calls `check_error` returns normally exactly when the
native return code is strictly positive, and on a zero or negative
return raises the translation of the controller's last error code
(`PI_GetError(ctrl_id)`), never the translation of the command's own
return — with one exception to the "if" direction: `get_reference_mode`
additionally raises a `ValueError` when the native call succeeds but the
mode written into the out-parameter is not a valid `ReferenceMode`
member (1 or 0). -/
theorem controller_axis_error_protocol (env : Gcs2) (cc : ControllerCommand)
    (ax : AxisCommand) :
    (∀ axes : String,
      ChecksCtrlError env cc.ctrl_id (env.PI_IsMoving cc.ctrl_id (encodeAscii axes)).1
        (ControllerCommand.is_moving env cc axes).1)
  ∧ ChecksCtrlError env cc.ctrl_id (env.PI_IsControllerReady cc.ctrl_id).1
      (ControllerCommand.is_controller_ready env cc).1
  ∧ ChecksCtrlError env cc.ctrl_id (env.PI_IsRunningMacro cc.ctrl_id).1
      ( ControllerCommand.is_running_macro env cc).1
  ∧ (∀ (include_deactivated : Bool) (nbytes : Int), 0 < nbytes →
      ChecksCtrlError env cc.ctrl_id
        ((if include_deactivated then env.PI_qSAI_ALL cc.ctrl_id nbytes
          else env.PI_qSAI cc.ctrl_id nbytes).1)
        (ControllerCommand.get_axes_id env cc include_deactivated nbytes).1)
  ∧ ChecksCtrlError env cc.ctrl_id (env.PI_StopAll cc.ctrl_id)
      (ControllerCommand.stop_all env cc).1
  ∧ (∀ nbytes : Int, 0 < nbytes →
      ChecksCtrlError env cc.ctrl_id (env.PI_qHLP cc.ctrl_id nbytes).1
        (ControllerCommand.get_available_commands env cc nbytes).1)
  ∧ (∀ nbytes : Int, 0 < nbytes →
      ChecksCtrlError env cc.ctrl_id (env.PI_qIDN cc.ctrl_id nbytes).1
        (ControllerCommand.get_identification_string env cc nbytes).1)
  ∧ (∀ nbytes : Int, 0 < nbytes →
      ChecksCtrlError env cc.ctrl_id (env.PI_qHPA cc.ctrl_id nbytes).1
        (ControllerCommand.get_available_parameters env cc nbytes).1)
  ∧ (∀ nbytes : Int, 0 < nbytes →
      ChecksCtrlError env cc.ctrl_id (env.PI_qTVI cc.ctrl_id nbytes).1
        (ControllerCommand.get_valid_character_set env cc nbytes).1)
  ∧ (∀ nbytes : Int, 0 < nbytes →
      ChecksCtrlError env cc.ctrl_id (env.PI_qVER cc.ctrl_id nbytes).1
        (ControllerCommand.get_version env cc nbytes).1)
  ∧ ((Succeeds (AxisCommand.get_reference_mode env ax).1 ↔
        (0 < (env.PI_qRON ax.ctrl_id ax.axis_id).1 ∧
          ((env.PI_qRON ax.ctrl_id ax.axis_id).2 = 1 ∨
            (env.PI_qRON ax.ctrl_id ax.axis_id).2 = 0)))
      ∧ ((env.PI_qRON ax.ctrl_id ax.axis_id).1 ≤ 0 →
          (AxisCommand.get_reference_mode env ax).1 =
            .error (ctrlFailure env ax.ctrl_id)))
  ∧ (∀ mode : Int,
      ChecksCtrlError env ax.ctrl_id (env.PI_RON ax.ctrl_id ax.axis_id mode)
        (AxisCommand.set_reference_mode env ax mode).1)
  ∧ ChecksCtrlError env ax.ctrl_id (env.PI_qFRF ax.ctrl_id ax.axis_id).1
      (AxisCommand.is_referenced env ax).1
  ∧ (∀ strategy : Option ReferenceStrategy,
      ChecksCtrlError env ax.ctrl_id (refRet env ax strategy)
        (AxisCommand.start_reference_movement env ax strategy).1)
  ∧ ChecksCtrlError env ax.ctrl_id (env.PI_GOH ax.ctrl_id ax.axis_id)
      (AxisCommand.go_to_home env ax).1
  ∧ (∀ axis : String,
      ChecksCtrlError env ax.ctrl_id (env.PI_HLT ax.ctrl_id ax.axis_id)
        (AxisCommand.halt env ax axis).1)
  ∧ ChecksCtrlError env ax.ctrl_id (env.PI_qPOS ax.ctrl_id ax.axis_id).1
      (AxisCommand.get_current_position env ax).1
  ∧ (∀ v : Float,
      ChecksCtrlError env ax.ctrl_id (env.PI_POS ax.ctrl_id ax.axis_id v)
        (AxisCommand.set_current_position env ax v).1)
  ∧ (∀ v : Float,
      ChecksCtrlError env ax.ctrl_id (env.PI_MOV ax.ctrl_id ax.axis_id v)
        (AxisCommand.set_target_position env ax v).1)
  ∧ (∀ v : Float,
      ChecksCtrlError env ax.ctrl_id (env.PI_MVR ax.ctrl_id ax.axis_id v)
        (AxisCommand.set_relative_target_position env ax v).1)
  ∧ ChecksCtrlError env ax.ctrl_id (env.PI_qVEL ax.ctrl_id ax.axis_id).1
      (AxisCommand.get_velocity env ax).1
  ∧ (∀ v : Float,
      ChecksCtrlError env ax.ctrl_id (env.PI_VEL ax.ctrl_id ax.axis_id v)
        (AxisCommand.set_velocity env ax v).1)
  ∧ ChecksCtrlError env ax.ctrl_id (env.PI_qACC ax.ctrl_id ax.axis_id).1
      (AxisCommand.get_acceleration env ax).1
  ∧ (∀ v : Float,
      ChecksCtrlError env ax.ctrl_id (env.PI_ACC ax.ctrl_id ax.axis_id v)
        (AxisCommand.set_acceleration env ax v).1)
  ∧ ChecksCtrlError env ax.ctrl_id (env.PI_qTMN ax.ctrl_id ax.axis_id).1
      (AxisCommand.get_travel_range_min env ax).1
  ∧ ChecksCtrlError env ax.ctrl_id (env.PI_qTMX ax.ctrl_id ax.axis_id).1
      (AxisCommand.get_travel_range_max env ax).1
  ∧ (∀ nbytes : Int, 0 < nbytes →
      ChecksCtrlError env ax.ctrl_id (env.PI_qCST ax.ctrl_id ax.axis_id nbytes).1
        (AxisCommand.get_stage_type env ax nbytes).1)
  ∧ (∀ (parameter : Nat) (volatile : Bool) (nelem nbytes : Int),
      0 < nelem → 0 < nbytes →
      ChecksCtrlError env ax.ctrl_id
        ((if volatile then env.PI_qSPA ax.ctrl_id ax.axis_id parameter nbytes
          else env.PI_qSEP ax.ctrl_id ax.axis_id parameter nbytes).1)
        (AxisCommand.get_parameter env ax parameter volatile nelem nbytes).1)
  ∧ (∀ (parameter : Nat) (values : List Float) (string : String)
        (volatile : Bool) (nbytes : Int),
      ChecksCtrlError env ax.ctrl_id
        (if volatile then
          env.PI_SPA ax.ctrl_id ax.axis_id parameter values (encodeAscii string)
        else
          env.PI_SEP ax.ctrl_id (encodeAscii "100") ax.axis_id parameter values
            (encodeAscii string))
        (AxisCommand.set_parameter env ax parameter values string volatile nbytes).1)
  ∧ (∀ state : Int,
      ChecksCtrlError env ax.ctrl_id (env.PI_SVO ax.ctrl_id ax.axis_id state)
        (AxisCommand.set_servo_state env ax state).1) := by
  refine ⟨?_, ?_, ?_, ?_, ?_, ?_, ?_, ?_, ?_, ?_, ?_, ?_, ?_, ?_, ?_, ?_, ?_,
    ?_, ?_, ?_, ?_, ?_, ?_, ?_, ?_, ?_, ?_, ?_, ?_, ?_⟩
  · intro axes
    exact checksCtrl_map _ _ _ _
  · exact checksCtrl_map _ _ _ _
  · exact checksCtrl_map _ _ _ _
  · intro b nbytes hn
    cases b <;>
      simp only [ControllerCommand.get_axes_id, if_neg (by omega : ¬ nbytes ≤ 0),
        Bool.false_eq_true, if_false, if_true] <;>
      exact checksCtrl_map _ _ _ _
  · exact checksCtrl_unit _ _ _
  · intro nbytes hn
    simp only [ControllerCommand.get_available_commands,
      if_neg (by omega : ¬ nbytes ≤ 0)]
    exact checksCtrl_map _ _ _ _
  · intro nbytes hn
    simp only [ControllerCommand.get_identification_string,
      if_neg (by omega : ¬ nbytes ≤ 0)]
    exact checksCtrl_map _ _ _ _
  · intro nbytes hn
    simp only [ControllerCommand.get_available_parameters,
      if_neg (by omega : ¬ nbytes ≤ 0)]
    exact checksCtrl_map _ _ _ _
  · intro nbytes hn
    simp only [ControllerCommand.get_valid_character_set,
      if_neg (by omega : ¬ nbytes ≤ 0)]
    exact checksCtrl_map _ _ _ _
  · intro nbytes hn
    simp only [ControllerCommand.get_version, if_neg (by omega : ¬ nbytes ≤ 0)]
    exact checksCtrl_map _ _ _ _
  · constructor
    · by_cases h : (env.PI_qRON ax.ctrl_id ax.axis_id).1 > 0
      · simp only [AxisCommand.get_reference_mode,
          ControllerCommand.check_error_of_pos h]
        by_cases h1 : (env.PI_qRON ax.ctrl_id ax.axis_id).2 = 1
        · simp [ReferenceMode.ofInt, h1, Succeeds, h]
          exact trivial
        · by_cases h0 : (env.PI_qRON ax.ctrl_id ax.axis_id).2 = 0
          · simp [ReferenceMode.ofInt, h1, h0, Succeeds, h]
            exact trivial
          · simp [ReferenceMode.ofInt, h1, h0, Succeeds, h]
            exact fun hh => hh
      · simp only [AxisCommand.get_reference_mode,
          ControllerCommand.check_error_fst_of_nonpos (by omega :
            (env.PI_qRON ax.ctrl_id ax.axis_id).1 ≤ 0)]
        simp [Succeeds, Except.bind]
        omega
    · intro h
      simp only [AxisCommand.get_reference_mode,
        ControllerCommand.check_error_fst_of_nonpos h]
      rfl
  · intro mode
    exact checksCtrl_unit _ _ _
  · exact checksCtrl_map _ _ _ _
  · intro strategy
    rcases strategy with _ | s
    · exact checksCtrl_unit _ _ _
    · cases s <;> exact checksCtrl_unit _ _ _
  · exact checksCtrl_unit _ _ _
  · intro axis
    exact checksCtrl_unit _ _ _
  · exact checksCtrl_map _ _ _ _
  · intro v
    exact checksCtrl_unit _ _ _
  · intro v
    exact checksCtrl_unit _ _ _
  · intro v
    exact checksCtrl_unit _ _ _
  · exact checksCtrl_map _ _ _ _
  · intro v
    exact checksCtrl_unit _ _ _
  · exact checksCtrl_map _ _ _ _
  · intro v
    exact checksCtrl_unit _ _ _
  · exact checksCtrl_map _ _ _ _
  · exact checksCtrl_map _ _ _ _
  · intro nbytes hn
    simp only [AxisCommand.get_stage_type, if_neg (by omega : ¬ nbytes ≤ 0)]
    exact checksCtrl_map _ _ _ _
  · intro parameter volatile nelem nbytes h1 h2
    cases volatile <;>
      simp only [AxisCommand.get_parameter, if_neg (by omega : ¬ nelem ≤ 0),
        if_neg (by omega : ¬ nbytes ≤ 0), Bool.false_eq_true, if_false, if_true] <;>
      exact checksCtrl_map _ _ _ _
  · intro parameter values string volatile nbytes
    cases volatile <;>
      simp only [AxisCommand.set_parameter, Bool.false_eq_true, if_false, if_true] <;>
      exact checksCtrl_unit _ _ _
  · intro state
    exact checksCtrl_unit _ _ _

theorem controller_axis_error_protocol_witness :
    (0 : Int) < 8 ∧
    Succeeds (ControllerCommand.get_version envOk (ControllerCommand.cinit 3) 8).1 := by
  refine ⟨by decide, ?_⟩
  have h := (controller_axis_error_protocol envOk (ControllerCommand.cinit 3)
    (AxisCommand.cinit 3 "A")).2.2.2.2.2.2.2.2.2.1 8 (by decide)
  exact h.1.mpr (by decide)

/-- Claim C1 counterexample: with a native layer whose `PI_qRON` returns
success (1) but writes mode 5, `get_reference_mode` raises a
`ValueError` even though the native return is strictly positive — the
claimed equivalence "returns normally iff return strictly positive"
fails for this operation. -/
theorem controller_axis_error_protocol_cx :
    0 < (envBadMode.PI_qRON 1 (encodeAscii "A")).1 ∧
    ¬ Succeeds (AxisCommand.get_reference_mode envBadMode
      (AxisCommand.cinit 1 "A")).1 :=
  ⟨by decide, by decide⟩
